import Mathlib

/-!
Shallow embedding of the crime-map dashboard core
(`crime_map_app.py` and `crime_map_appV2.py`): category classification,
point-in-polygon attribution (spatial join), coordinate-reference-system
handling, and the year-driven Dash callbacks, together with theorems
settling the specification claims.
-/

namespace CrimeMap

/-- A planar point, `shapely.geometry.Point(longitude, latitude)`.
Coordinates are modelled as rationals. -/
structure Pt where
  x : ℚ
  y : ℚ
deriving DecidableEq

/-- One region of the boundary shapefile: a named polygon. The polygon
geometry is external-library data (shapely); we model it by its strict
containment predicate, the `within` test the spatial join delegates to. -/
structure Region where
  name : String
  containsB : Pt → Bool

/-- One row of a `{year}crimedata.csv` table after the columns are
lowercased: latitude, longitude, the raw `category` string and the `city`
column used for hover data. -/
structure CrimeRow where
  latitude : ℚ
  longitude : ℚ
  category : String
  city : String
deriving DecidableEq

/-- `crime_df['geometry'] = crime_df.apply(lambda row: Point(row.longitude, row.latitude), axis=1)`. -/
def geometry (r : CrimeRow) : Pt := ⟨r.longitude, r.latitude⟩

/-- The `bins` lists of `update_aggregated_crime_scatter`: the four fixed
member-category sets of the classification table. -/
def bins : List (List String) :=
  [ ["NON-AGGRAVATED ASSAULTS", "AGGRAVATED ASSAULT", "FORCIBLE RAPE", "ROBBERY", "CRIMINAL HOMICIDE",
     "SEX OFFENSES MISDEMEANORS", "SEX OFFENSES FELONIES", "OFFENSES AGAINST FAMILY", "WEAPON LAWS",
     "DISORDERLY CONDUCT"],
    ["GRAND THEFT AUTO", "LARCENY THEFT", "BURGLARY", "ARSON", "VANDALISM", "RECEIVING STOLEN PROPERTY",
     "FORGERY", "FRAUD AND NSF CHECKS"],
    ["NARCOTICS", "DRUNK / ALCOHOL / DRUGS", "LIQUOR LAWS", "DRUNK DRIVING VEHICLE / BOAT"],
    ["VEHICLE / BOATING LAWS", "MISDEMEANORS MISCELLANEOUS", "FELONIES MISCELLANEOUS", "WARRANTS",
     "VAGRANCY", "GAMBLING", "FEDERAL OFFENSES WITH MONEY", "FEDERAL OFFENSES W/O MONEY"] ]

/-- The `labels` list: the four aggregate bucket labels, parallel to `bins`. -/
def labels : List String :=
  ["Person-Related Crimes", "Property Crimes", "Drug and Alcohol-Related Crimes", "Miscellaneous Crimes"]

/-- `assign_aggregated_category(row)`: walk `zip(bins, labels)` in order,
return the first label whose bin contains the category, else `'Other'`. -/
def assignAggregatedCategory (category : String) : String :=
  match (bins.zip labels).find? (fun p => p.1.contains category) with
  | some p => p.2
  | none => "Other"

/-- `crime_df['category'].str.strip()` applied at load time: strip
leading/trailing whitespace from the raw category (pandas `str.strip`
with no argument removes leading and trailing whitespace characters).
No case folding is performed. -/
def stripCategory (s : String) : String :=
  ⟨((s.data.dropWhile Char.isWhitespace).reverse.dropWhile Char.isWhitespace).reverse⟩

/-- The load-then-classify composite actually applied to a raw CSV category
string in `crime_map_app.py`: strip at load (line 34), then table lookup in
the aggregated-crime callback. -/
def classifyRaw (raw : String) : String := assignAggregatedCategory (stripCategory raw)

/-- Strip the category column of a whole table, as the load pipeline does. -/
def stripCats (rows : List CrimeRow) : List CrimeRow :=
  rows.map (fun r => { r with category := stripCategory r.category })

example : stripCategory " Robbery " = "Robbery" := by decide
example : classifyRaw " Robbery " = "Other" := by decide
example : classifyRaw " ROBBERY " = "Person-Related Crimes" := by decide
example : assignAggregatedCategory "JAYWALKING" = "Other" := by decide
example : assignAggregatedCategory "" = "Other" := by decide

/-! ## Spatial join (`gpd.sjoin(crime_data, cities, how='inner', predicate='within')`) -/

/-- All left-right row pairs, the candidate set of a join, in left-major
(left-index-sorted) order as geopandas returns it. -/
def crossJoin {α β : Type} : List α → List β → List (α × β)
  | [], _ => []
  | a :: as, bs => bs.map (fun b => (a, b)) ++ crossJoin as bs

/-- `gpd.sjoin(crime_data, cities, how='inner', predicate='within')`:
keep exactly the (incident, region) pairs whose point is strictly within
the region polygon; the output row carries the incident columns plus the
joined region's attributes (here, its name). An inner join emits one
output row per matching pair and drops incidents with no match. -/
def sjoin (incidents : List CrimeRow) (regions : List Region) : List (CrimeRow × String) :=
  ((crossJoin incidents regions).filter (fun p => p.2.containsB (geometry p.1))).map
    (fun p => (p.1, p.2.name))

/-! ## Coordinate reference systems -/

/-- A GeoDataFrame of region polygons together with its coordinate
reference system tag (`cities.crs`); `none` models a naive geometry with
no CRS set. -/
structure RegionTable where
  crs : Option String
  regions : List Region

/-- A GeoDataFrame of incidents together with its CRS tag
(`crime_data.crs`). -/
structure CrimeGeo where
  crs : Option String
  rows : List CrimeRow

/-- `cities.to_crs(c)`: reproject the region table into frame `c`. The
geometric transformation is the geometry library's; what the claims need
is the frame bookkeeping: the result carries CRS `c`. -/
def to_crs (t : RegionTable) (c : String) : RegionTable :=
  { t with crs := some c }

/-- `if crime_data.crs is None: crime_data.crs = "EPSG:4326"`. -/
def setDefaultCrs (g : CrimeGeo) : CrimeGeo :=
  if g.crs = none then { g with crs := some "EPSG:4326" } else g

/-- The spatial join as the geometry layer performs it: containment
testing across mismatched (or missing) reference frames is meaningless
and surfaces as a `ReferenceFrameMismatch` error; with matching frames it
is the plain inner `within` join. -/
def sjoinChecked (crime : CrimeGeo) (cities : RegionTable) :
    Except String (List (CrimeRow × String)) :=
  match crime.crs, cities.crs with
  | some c1, some c2 =>
      if c1 = c2 then .ok (sjoin crime.rows cities.regions)
      else .error "ReferenceFrameMismatch"
  | _, _ => .error "ReferenceFrameMismatch"

/-! ## Figures (the values the Dash callbacks return) -/

/-- The observable content of a returned plotly figure: the empty `{}`
sentinel, a heat map (base-map region names plus the density layer's
(latitude, longitude) points), or a scatter map (base-map region names
plus (latitude, longitude, color-label) scatter points). -/
inductive Figure where
  | emptyFig : Figure
  | heat (base : List String) (points : List (ℚ × ℚ)) : Figure
  | scatter (base : List String) (points : List (ℚ × ℚ × String)) : Figure
deriving DecidableEq

/-! ## `crime_map_app.py` (V1): module-level load and the two callbacks -/

/-- The shared `crime_data` GeoDataFrame of V1 as the callbacks see it:
its incident rows plus the `aggregated_category` column, which is absent
(`none`) until the aggregated-crime callback first writes it. -/
structure CrimeTable where
  rows : List CrimeRow
  aggregated_category : Option (List String)
deriving DecidableEq

namespace V1

/-- The module-level attribution pipeline of `crime_map_app.py` lines
29-49: strip the category column, build the incident GeoDataFrame (no
CRS), default its CRS to EPSG:4326, reproject `cities` into the incident
CRS, and perform the inner `within` spatial join producing `joined_data`. -/
def loadJoinedData (cities0 : RegionTable) (rawRows : List CrimeRow) :
    Except String (List (CrimeRow × String)) :=
  let crime := setDefaultCrs ⟨none, stripCats rawRows⟩
  let cities := to_crs cities0 ((crime.crs).getD "EPSG:4326")
  sjoinChecked crime cities

/-- The heat-map figure of the V1 layout (lines 72-91): the base map over
`cities` with a density layer drawn from `crime_data` — the full loaded
incident collection, not `joined_data`. -/
def heat_map_figure (cities : List Region) (crime_rows : List CrimeRow) : Figure :=
  .heat (cities.map Region.name) (crime_rows.map (fun r => (r.latitude, r.longitude)))

/-- The filter step `crime_data[crime_data['aggregated_category'].isin(selected_categories)]`,
applied to the rows paired with their freshly computed aggregated column. -/
def filterByBuckets (rows : List CrimeRow) (selected : List String) :
    List (CrimeRow × String) :=
  (rows.zip (rows.map (fun r => assignAggregatedCategory r.category))).filter
    (fun p => selected.contains p.2)

/-- `update_aggregated_crime_scatter(selected_categories)` of V1: writes
the `aggregated_category` column into the shared `crime_data` (a state
change), filters by the selected buckets, and returns the scatter figure.
The result pairs the new shared state with the returned figure. -/
def update_aggregated_crime_scatter (cities : List Region) (s : CrimeTable)
    (selected_categories : List String) : CrimeTable × Figure :=
  let aggCol := s.rows.map (fun r => assignAggregatedCategory r.category)
  let filtered := filterByBuckets s.rows selected_categories
  (⟨s.rows, some aggCol⟩,
   .scatter (cities.map Region.name)
     (filtered.map (fun p => (p.1.latitude, p.1.longitude, p.2))))

/-- `update_specific_crime_scatter(selected_crime_categories)` of V1:
reads the shared `crime_data`, filters by raw category, returns the
scatter figure; the shared state is untouched. -/
def update_specific_crime_scatter (cities : List Region) (s : CrimeTable)
    (selected_crime_categories : List String) : CrimeTable × Figure :=
  let filtered := s.rows.filter (fun r => selected_crime_categories.contains r.category)
  (s,
   .scatter (cities.map Region.name)
     (filtered.map (fun r => (r.latitude, r.longitude, r.category))))

end V1

/-! ## `crime_map_appV2.py`: year-driven callbacks -/

/-- The per-year data source registry: `registry y = some rows` models
`os.path.exists(f'.../{y}crimedata.csv')` being true and the file reading
as `rows`; `none` models the file being absent. -/
def Registry : Type := String → Option (List CrimeRow)

namespace V2

/-- `update_data(selected_year)`: if the year's file exists, load it,
strip categories, default the incident CRS, reproject `cities`, compute
`joined_data` by the inner `within` join, and return the heat-map figure
whose density layer is drawn from `crime_data` (the full loaded
collection); if the file is absent, return the empty figure `{}`. -/
def update_data (cities0 : RegionTable) (registry : Registry) (selected_year : String) :
    Except String Figure :=
  match registry selected_year with
  | some rawRows =>
      let rows := stripCats rawRows
      let crime := setDefaultCrs ⟨none, rows⟩
      let cities := to_crs cities0 ((crime.crs).getD "EPSG:4326")
      match sjoinChecked crime cities with
      | .error e => .error e
      | .ok _joined =>
          .ok (.heat (cities.regions.map Region.name)
                 (rows.map (fun r => (r.latitude, r.longitude))))
  | none => .ok .emptyFig

/-- `update_aggregated_crime_scatter(selected_categories, selected_year)`
of V2: the local `crime_df` is assigned only inside the
`if os.path.exists(...)` branch, yet `crime_df['aggregated_category'] = ...`
runs unconditionally afterwards; when the year's file is absent this
raises `UnboundLocalError` (modelled as `.error`). When the file exists
the loaded table (columns lowercased, categories NOT stripped in this
callback) is classified, filtered by the selected buckets, and returned
as a scatter figure. -/
def update_aggregated_crime_scatter (cities : RegionTable) (registry : Registry)
    (selected_categories : List String) (selected_year : String) :
    Except String Figure :=
  match registry selected_year with
  | none => .error "UnboundLocalError: local variable referenced before assignment"
  | some rows =>
      let filtered := V1.filterByBuckets rows selected_categories
      .ok (.scatter (cities.regions.map Region.name)
             (filtered.map (fun p => (p.1.latitude, p.1.longitude, p.2))))

/-- `update_specific_crime_scatter(selected_crime_categories, selected_year)`
of V2: the locals `crime_df` and `filtered_data` are assigned only inside
the `if os.path.exists(...)` branch, yet `px.scatter_mapbox(filtered_data, ...)`
runs unconditionally; a missing year raises `UnboundLocalError`. With the
file present, the rows are filtered by raw category and returned as a
scatter figure. -/
def update_specific_crime_scatter (cities : RegionTable) (registry : Registry)
    (selected_crime_categories : List String) (selected_year : String) :
    Except String Figure :=
  match registry selected_year with
  | none => .error "UnboundLocalError: local variable referenced before assignment"
  | some rows =>
      let filtered := rows.filter (fun r => selected_crime_categories.contains r.category)
      .ok (.scatter (cities.regions.map Region.name)
             (filtered.map (fun r => (r.latitude, r.longitude, r.category))))

end V2

/-! ## Concrete fixtures for evaluations -/

/-- Strict rectangle-interior containment: an example polygon `within`
predicate for concrete evaluations (the `within` test is strict, so the
open rectangle). -/
def rectContains (x0 x1 y0 y1 : ℚ) (p : Pt) : Bool :=
  decide (x0 < p.x ∧ p.x < x1 ∧ y0 < p.y ∧ p.y < y1)

/-- An example region roughly around Los Angeles County. -/
def laBox : Region := ⟨"LA County", rectContains (-119) (-117) 33 35⟩

/-- An example region table as loaded from the shapefile (a projected CRS
before reprojection). -/
def laCities : RegionTable := ⟨some "EPSG:2229", [laBox]⟩

/-- Two overlapping example regions, both containing downtown LA. -/
def alphaRegion : Region := ⟨"Alpha", rectContains (-119) (-117) 33 35⟩

/-- Second overlapping example region. -/
def betaRegion : Region := ⟨"Beta", rectContains (-120) (-116) 32 36⟩

/-- An incident at (longitude, latitude) = (0, 0), outside the county. -/
def originIncident : CrimeRow := ⟨0, 0, "ROBBERY", "Nowhere"⟩

/-- An incident inside the example region, with a bucketed category. -/
def laIncident : CrimeRow := ⟨34, -118, "ROBBERY", "Los Angeles"⟩

/-- An incident inside the example region whose category is in no bin. -/
def jayIncident : CrimeRow := ⟨34, -118, "JAYWALKING", "Los Angeles"⟩

/-- A registry with a source file for 2023 only. -/
def registry2023 : Registry := fun y => if y = "2023" then some [laIncident] else none

/-- A registry agreeing with `registry2023` on 2023 but not elsewhere. -/
def registryB : Registry := fun y => if y = "2023" then some [laIncident] else some [jayIncident]

/-! ## Helper lemmas -/

/-- The classifier returns `"Other"` or one of the four bucket labels. -/
lemma assign_mem_labels (c : String) :
    assignAggregatedCategory c = "Other" ∨ assignAggregatedCategory c ∈ labels := by
  unfold assignAggregatedCategory
  cases h : (bins.zip labels).find? (fun p => p.1.contains c) with
  | none => exact Or.inl rfl
  | some p =>
      obtain ⟨bl, lab⟩ := p
      exact Or.inr (List.of_mem_zip (List.mem_of_find?_eq_some h)).2

/-- A category in none of the bins classifies to `"Other"`. -/
lemma assign_eq_other_of_not_mem (c : String) (h : ∀ bl ∈ bins, c ∉ bl) :
    assignAggregatedCategory c = "Other" := by
  unfold assignAggregatedCategory
  have hnone : (bins.zip labels).find? (fun p => p.1.contains c) = none := by
    rw [List.find?_eq_none]
    rintro ⟨bl, lab⟩ hp
    have hb : bl ∈ bins := (List.of_mem_zip hp).1
    simpa using h bl hb
  rw [hnone]

/-- The four bucket labels contain the classifier's output exactly when
that output is not `"Other"`. -/
lemma contains_labels_eq (c : String) :
    labels.contains (assignAggregatedCategory c)
      = (assignAggregatedCategory c != "Other") := by
  rcases assign_mem_labels c with h | h
  · rw [h]; decide
  · have h2 : assignAggregatedCategory c ≠ "Other" := by
      intro he
      rw [he] at h
      exact absurd h (by decide)
    have h1 : labels.contains (assignAggregatedCategory c) = true := by simpa using h
    rw [h1, bne_iff_ne.mpr h2]

/-- The spatial join groups per incident: one output record per containing
region, in the stable order of the region table. -/
lemma sjoin_eq_flatMap (incidents : List CrimeRow) (regions : List Region) :
    sjoin incidents regions
      = incidents.flatMap (fun i =>
          (regions.filter (fun r => r.containsB (geometry i))).map (fun r => (i, r.name))) := by
  induction incidents with
  | nil => rfl
  | cons a as ih =>
      simp only [sjoin] at ih ⊢
      have h1 : crossJoin (a :: as) regions
          = regions.map (fun b => (a, b)) ++ crossJoin as regions := rfl
      rw [h1, List.filter_append, List.map_append, ih, List.flatMap_cons]
      congr 1
      rw [List.filter_map, List.map_map]
      rfl

/-- The first projection of the bucket filter is a plain row filter. -/
lemma filterByBuckets_fst (rows : List CrimeRow) (sel : List String) :
    (V1.filterByBuckets rows sel).map Prod.fst
      = rows.filter (fun r => sel.contains (assignAggregatedCategory r.category)) := by
  induction rows with
  | nil => rfl
  | cons a as ih =>
      simp only [V1.filterByBuckets, List.map_cons, List.zip_cons_cons, List.filter_cons] at ih ⊢
      by_cases h : sel.contains (assignAggregatedCategory a.category) = true
      · rw [if_pos h, if_pos h, List.map_cons, ih]
      · rw [if_neg h, if_neg h, ih]

/-- Stripping the category column leaves each row's coordinates unchanged. -/
lemma stripCats_latlon (rows : List CrimeRow) :
    (stripCats rows).map (fun r => (r.latitude, r.longitude))
      = rows.map (fun r => (r.latitude, r.longitude)) := by
  simp only [stripCats, List.map_map]
  rfl

/-! ## Claim theorems -/

/-- C1 counterexample: the pipeline normalizes `" Robbery "` only by
stripping whitespace, yielding `"Robbery"`, which matches no (uppercase)
table entry, so the classification is `"Other"` — not the claimed
`"Person-Related Crimes"` via a case-normalized `"robbery"`. -/
theorem C1_counterexample :
    stripCategory " Robbery " = "Robbery"
    ∧ classifyRaw " Robbery " = "Other"
    ∧ classifyRaw " Robbery " ≠ "Person-Related Crimes" := by decide

/-- C1 amended: for every raw category string, the classifier normalizes
it by stripping leading/trailing whitespace only — no case normalization —
before the table lookup; the table is evaluated against the stripped key,
so `" ROBBERY "` is normalized to `"ROBBERY"` and classified
`"Person-Related Crimes"`, while `" Robbery "` classifies `"Other"`. -/
theorem C1_strip_only_normalization :
    (∀ raw : String, classifyRaw raw = assignAggregatedCategory (stripCategory raw))
    ∧ stripCategory " ROBBERY " = "ROBBERY"
    ∧ classifyRaw " ROBBERY " = "Person-Related Crimes"
    ∧ classifyRaw " Robbery " = "Other" :=
  ⟨fun _ => rfl, by decide, by decide, by decide⟩

/-- C2: at a year with no source file (2021 in a registry holding only
2023), `update_data` returns the empty-figure sentinel, but the other two
year-driven callbacks raise `UnboundLocalError`: their local `crime_df` /
`filtered_data` is assigned only inside the `if os.path.exists(...)`
branch yet is used unconditionally afterwards. -/
theorem C2_missing_year_raises :
    V2.update_data laCities registry2023 "2021" = .ok .emptyFig
    ∧ V2.update_aggregated_crime_scatter laCities registry2023 labels "2021"
        = .error "UnboundLocalError: local variable referenced before assignment"
    ∧ V2.update_specific_crime_scatter laCities registry2023 [] "2021"
        = .error "UnboundLocalError: local variable referenced before assignment" :=
  ⟨rfl, rfl, rfl⟩

/-- C3 counterexample: the incident at (longitude, latitude) = (0, 0),
outside the region, is absent from the inner spatial join's output — it
is not kept with a null region. -/
theorem C3_counterexample :
    sjoin [originIncident] [laBox] = []
    ∧ originIncident ∉ (sjoin [originIncident] [laBox]).map Prod.fst := by decide

/-- C3 amended: an incident point contained in no region polygon is
omitted from the attributed collection entirely (the join is inner); it
does not appear in the output at all, with or without a null region. -/
theorem C3_unattributed_dropped (incidents : List CrimeRow) (regions : List Region)
    (i : CrimeRow) (hout : ∀ r ∈ regions, r.containsB (geometry i) = false) :
    i ∉ (sjoin incidents regions).map Prod.fst := by
  rw [sjoin_eq_flatMap]
  intro hmem
  rw [List.mem_map] at hmem
  obtain ⟨p, hp, hfst⟩ := hmem
  rw [List.mem_flatMap] at hp
  obtain ⟨j, hj, hpj⟩ := hp
  rw [List.mem_map] at hpj
  obtain ⟨r, hr, hpr⟩ := hpj
  have hrc := List.mem_filter.mp hr
  rw [← hpr] at hfst
  have hji : j = i := hfst
  rw [hji] at hrc
  rw [hout r hrc.1] at hrc
  exact Bool.false_ne_true hrc.2

/-- C3 witness: the theorem applied at the concrete out-of-region
incident. -/
theorem C3_witness :
    originIncident ∉ (sjoin [originIncident] [laBox]).map Prod.fst :=
  C3_unattributed_dropped [originIncident] [laBox] originIncident (by decide)

/-- C4 counterexample: a collection holding one incident whose category
(`"JAYWALKING"`) falls in no bucket: filtering with all 4 buckets selected
returns the empty set, not the full collection. -/
theorem C4_counterexample :
    (V1.filterByBuckets [jayIncident] labels).map Prod.fst = []
    ∧ (V1.filterByBuckets [jayIncident] labels).map Prod.fst ≠ [jayIncident] := by decide

/-- C4 amended: filtering with all 4 buckets selected returns exactly the
incidents whose aggregated category is one of the 4 bucket labels —
incidents classifying to `"Other"` are dropped — and it coincides with the
unfiltered collection precisely when no incident classifies to `"Other"`. -/
theorem C4_all_buckets_filter (rows : List CrimeRow) :
    (V1.filterByBuckets rows labels).map Prod.fst
      = rows.filter (fun r => assignAggregatedCategory r.category != "Other")
    ∧ ((∀ r ∈ rows, assignAggregatedCategory r.category ≠ "Other")
        → (V1.filterByBuckets rows labels).map Prod.fst = rows) := by
  have hmain : (V1.filterByBuckets rows labels).map Prod.fst
      = rows.filter (fun r => assignAggregatedCategory r.category != "Other") := by
    rw [filterByBuckets_fst]
    exact List.filter_congr (fun r _ => contains_labels_eq r.category)
  refine ⟨hmain, fun hall => ?_⟩
  rw [hmain]
  exact List.filter_eq_self.mpr (fun r hr => bne_iff_ne.mpr (hall r hr))

/-- C4 witness: on a collection whose single incident classifies into a
bucket, the all-buckets filter is the identity. -/
theorem C4_witness :
    (V1.filterByBuckets [laIncident] labels).map Prod.fst = [laIncident] :=
  (C4_all_buckets_filter [laIncident]).2 (by decide)

/-- C5 counterexample: invoking the V1 aggregated-crime callback on the
shared collection changes it — the `aggregated_category` column appears —
so the shared incident collection is not unchanged by every callback. -/
theorem C5_counterexample :
    (V1.update_aggregated_crime_scatter [laBox] ⟨[laIncident], none⟩ labels).1
      ≠ (⟨[laIncident], none⟩ : CrimeTable) := by decide

/-- C5 amended: the V1 aggregated-crime callback mutates the shared
`crime_data` by writing the `aggregated_category` column (recomputed from
the rows); the incident rows themselves are unchanged, and the
specific-crime callback leaves the shared collection untouched. -/
theorem C5_mutation_characterized (cities : List Region) (s : CrimeTable)
    (sel sel2 : List String) :
    (V1.update_aggregated_crime_scatter cities s sel).1
      = ⟨s.rows, some (s.rows.map (fun r => assignAggregatedCategory r.category))⟩
    ∧ (V1.update_aggregated_crime_scatter cities s sel).1.rows = s.rows
    ∧ (V1.update_specific_crime_scatter cities s sel2).1 = s :=
  ⟨rfl, rfl, rfl⟩

/-- C6: classification is total — every raw category input, the empty
string included, returns exactly one of the 5 labels (the 4 bucket labels
or `"Other"`, which are 5 distinct strings), and any category matching no
bin maps to `"Other"`; being a function, it never fails. -/
theorem C6_classification_total (c : String) :
    assignAggregatedCategory c ∈ ("Other" :: labels)
    ∧ ((∀ bl ∈ bins, c ∉ bl) → assignAggregatedCategory c = "Other")
    ∧ assignAggregatedCategory "" = "Other"
    ∧ ("Other" :: labels).length = 5
    ∧ ("Other" :: labels).Nodup := by
  refine ⟨?_, assign_eq_other_of_not_mem c, by decide, by decide, by decide⟩
  rcases assign_mem_labels c with h | h
  · rw [h]; exact List.mem_cons_self _ _
  · exact List.mem_cons_of_mem _ h

/-- C6 witness: the theorem applied at a category in no bin. -/
theorem C6_witness : assignAggregatedCategory "JAYWALKING" = "Other" :=
  (C6_classification_total "JAYWALKING").2.1 (by decide)

/-- C7: the region polygons are always reprojected into the incident
reference frame before the containment test: the V1 module-level pipeline
and the V2 per-year callback always hand the join geometries in matching
frames, so the checked join never produces a `ReferenceFrameMismatch` and
no such error reaches the user. -/
theorem C7_reprojection_before_join :
    (∀ (cities0 : RegionTable) (rawRows : List CrimeRow),
        V1.loadJoinedData cities0 rawRows
          = .ok (sjoin (stripCats rawRows) cities0.regions))
    ∧ (∀ (cities0 : RegionTable) (registry : Registry) (y : String),
        ∃ f, V2.update_data cities0 registry y = .ok f) := by
  constructor
  · intro cities0 rawRows
    rfl
  · intro cities0 registry y
    cases hy : registry y with
    | none =>
        exact ⟨.emptyFig, by rw [V2.update_data, hy]⟩
    | some rows =>
        refine ⟨.heat ((to_crs cities0 "EPSG:4326").regions.map Region.name)
          ((stripCats rows).map (fun r => (r.latitude, r.longitude))), ?_⟩
        rw [V2.update_data, hy]
        rfl

/-- C8 counterexample: the incident inside both overlapping regions
produces two attributed records (one per containing region), not exactly
one record chosen by a tie-break. -/
theorem C8_counterexample :
    sjoin [laIncident] [alphaRegion, betaRegion]
      = [(laIncident, "Alpha"), (laIncident, "Beta")]
    ∧ (sjoin [laIncident] [alphaRegion, betaRegion]).length ≠ 1 := by decide

/-- C8 amended: for an incident contained in several (overlapping) region
polygons, attribution emits one attributed record per containing region,
in the stable order of the region table — deterministic, but a
multiplicity of records rather than a single tie-broken assignment. -/
theorem C8_record_per_containing_region (incidents : List CrimeRow) (regions : List Region) :
    sjoin incidents regions
      = incidents.flatMap (fun i =>
          (regions.filter (fun r => r.containsB (geometry i))).map (fun r => (i, r.name)))
    ∧ ∀ i : CrimeRow, sjoin [i] regions
        = (regions.filter (fun r => r.containsB (geometry i))).map (fun r => (i, r.name)) := by
  refine ⟨sjoin_eq_flatMap incidents regions, fun i => ?_⟩
  rw [sjoin_eq_flatMap]
  simp

/-- C9: classification and year-partitioned selection are deterministic
across repeated runs — a second invocation of the V1 aggregated-crime
callback on the state its first invocation produced returns the very same
state and figure, and the V2 per-year callback's output depends only on
the requested year's source (and the selection), with no hidden state. -/
theorem C9_deterministic :
    (∀ (cities : List Region) (s : CrimeTable) (sel : List String),
        V1.update_aggregated_crime_scatter cities
            (V1.update_aggregated_crime_scatter cities s sel).1 sel
          = V1.update_aggregated_crime_scatter cities s sel)
    ∧ (∀ (cities : RegionTable) (reg reg2 : Registry) (sel : List String) (y : String),
        reg y = reg2 y
          → V2.update_aggregated_crime_scatter cities reg sel y
              = V2.update_aggregated_crime_scatter cities reg2 sel y) := by
  constructor
  · intro cities s sel
    rfl
  · intro cities reg reg2 sel y h
    rw [V2.update_aggregated_crime_scatter, V2.update_aggregated_crime_scatter, h]

/-- C9 witness: two registries agreeing on 2023 give the same output
there; the theorem applied at the concrete registries. -/
theorem C9_witness :
    V2.update_aggregated_crime_scatter laCities registry2023 labels "2023"
      = V2.update_aggregated_crime_scatter laCities registryB labels "2023" :=
  C9_deterministic.2 laCities registry2023 registryB labels "2023" (by decide)

/-- The density layer's points of a figure (empty unless a heat map). -/
def heatPoints : Figure → List (ℚ × ℚ)
  | .heat _ pts => pts
  | _ => []

/-- C10: the heat-map view draws its density layer from the full loaded
incident collection, not from the spatial-join output: in the V1 layout
figure every loaded incident's point appears, and the V2 per-year callback
returns a heat map whose points are exactly the loaded rows' coordinates —
independent of the join — so every incident, also one inside no region,
appears. -/
theorem C10_heat_map_full_collection
    (cities : List Region) (cities0 : RegionTable) (registry : Registry)
    (y : String) (rows : List CrimeRow) (r : CrimeRow)
    (hy : registry y = some rows) (hr : r ∈ rows) :
    (r.latitude, r.longitude) ∈ heatPoints (V1.heat_map_figure cities rows)
    ∧ ∃ base pts, V2.update_data cities0 registry y = .ok (.heat base pts)
        ∧ pts = rows.map (fun row => (row.latitude, row.longitude))
        ∧ (r.latitude, r.longitude) ∈ pts := by
  have hmem : (r.latitude, r.longitude)
      ∈ rows.map (fun row => (row.latitude, row.longitude)) :=
    List.mem_map_of_mem _ hr
  refine ⟨hmem, ⟨(to_crs cities0 "EPSG:4326").regions.map Region.name,
    rows.map (fun row => (row.latitude, row.longitude)), ?_, rfl, hmem⟩⟩
  have hstep : V2.update_data cities0 registry y
      = .ok (.heat ((to_crs cities0 "EPSG:4326").regions.map Region.name)
          ((stripCats rows).map (fun row => (row.latitude, row.longitude)))) := by
    rw [V2.update_data, hy]
    rfl
  rw [hstep, stripCats_latlon]

/-- C10 witness: the theorem applied at the concrete 2023 registry and
its single incident. -/
theorem C10_witness :
    (laIncident.latitude, laIncident.longitude)
      ∈ heatPoints (V1.heat_map_figure [laBox] [laIncident]) :=
  (C10_heat_map_full_collection [laBox] laCities registry2023 "2023" [laIncident]
    laIncident (by decide) (by decide)).1

end CrimeMap
